import Mathlib

/-!
# Ticket-Bot: a shallow embedding of the ticket lifecycle core

This file embeds, in Lean, the concurrency-sensitive core of the Ticket-Bot
repository: the in-process cache and distributed rate limiter
(`bot/services/cache.py`, `bot/utils/rate_limit.py`), the per-guild ticket
counter (`bot/database/repositories.py`), the ticket lifecycle operations
(`bot/services/ticket_service.py`), the blacklist read path with lazy expiry,
and the automation job scheduler with its polling worker
(`bot/services/automation_service.py`, `bot/cogs/tickets.py`).

Conventions of the embedding:
* Instants are natural numbers (seconds).  `datetime` arithmetic such as
  `now + timedelta(minutes=m)` becomes `now + 60 * m`.
* Database tables become Lean data: rows are structures, tables are lists
  (where the code enumerates rows) or functions to `Option` (where the code
  only does keyed point lookups).  Serialization-only columns (`updated_at`
  audit stamps, JSON encodings of notes/answers, transcript paths) are not
  modeled; they are never read by the operations under study.
* `uuid4()` and the Discord channel created by `guild.create_text_channel`
  are external nondeterminism; the fresh identifiers are taken as parameters.
* Fallible operations return `Except TicketError`, mirroring the raised
  exception types in `bot/core/errors.py`.
-/

namespace TicketBot

/-! ## `bot/services/cache.py` — `MemoryCache`

The in-process cache backend: a dict from keys to values with optional
expiry, every operation guarded by one mutex (so each operation is atomic). -/

/-- A stored cache entry (`_MemoryValue`): counter value plus optional expiry
instant. -/
structure MemoryValue where
  value : Nat
  expires_at : Option Nat
  deriving Repr, DecidableEq

/-- The cache dict `MemoryCache._store`. -/
def CacheStore : Type := String → Option MemoryValue

/-- A cache with no entries. -/
def CacheStore.empty : CacheStore := fun _ => none

/-- Point update of the dict. -/
def CacheStore.setEntry (s : CacheStore) (k : String) (v : MemoryValue) : CacheStore :=
  fun k2 => if k2 = k then some v else s k2

/-- `MemoryCache._is_expired`: `time.time() >= entry.expires_at` (no expiry
means never expired). -/
def isExpired (now : Nat) (e : MemoryValue) : Bool :=
  match e.expires_at with
  | none => false
  | some t => decide (t ≤ now)

/-- The expiry armed by `incr`/`set`: `now + ttl if ttl else None`.  Python
truthiness: a `ttl` of `None` or `0` arms no expiry. -/
def ttlExpiry (now : Nat) (ttl : Option Nat) : Option Nat :=
  match ttl with
  | none => none
  | some t => if t = 0 then none else some (now + t)

/-- `MemoryCache.incr`: atomically increment a counter key.  A missing or
expired entry restarts the counter at 1 and arms a fresh expiry; a live entry
is incremented and keeps its existing expiry. -/
def MemoryCache.incr (store : CacheStore) (key : String) (ttl : Option Nat) (now : Nat) :
    Nat × CacheStore :=
  match store key with
  | none => (1, store.setEntry key ⟨1, ttlExpiry now ttl⟩)
  | some entry =>
    if isExpired now entry then
      (1, store.setEntry key ⟨1, ttlExpiry now ttl⟩)
    else
      (entry.value + 1, store.setEntry key ⟨entry.value + 1, entry.expires_at⟩)

/-! ## `bot/utils/rate_limit.py` — `DistributedRateLimiter` -/

/-- The result record returned by `DistributedRateLimiter.hit`. -/
structure RateLimitResult where
  allowed : Bool
  current : Nat
  limit : Nat
  deriving Repr, DecidableEq

/-- `DistributedRateLimiter.hit`: one fixed-window increment;
`allowed = current <= limit`. -/
def hit (store : CacheStore) (key : String) (limit window_seconds now : Nat) :
    RateLimitResult × CacheStore :=
  let r := MemoryCache.incr store key (some window_seconds) now
  (⟨decide (r.1 ≤ limit), r.1, limit⟩, r.2)

end TicketBot

namespace TicketBot

/-! ## `bot/database/repositories.py` — `GuildRepository.next_ticket_number`

The method issues two separate statements against `guild_settings`:
a `SELECT ticket_counter` and then an `UPDATE ... SET ticket_counter = ?`
computed in Python as `current + 1`.  Each single statement is atomic (the
sqlite connection lock / one pooled statement), but the pair is not: there is
an await point between them, so two cooperative tasks can interleave. -/

/-- `guild_settings.ticket_counter` per guild; a guild just inserted by
`ensure_guild` has the column default 0. -/
def GuildCounters : Type := Nat → Nat

/-- Write one guild's counter. -/
def GuildCounters.setCounter (c : GuildCounters) (g n : Nat) : GuildCounters :=
  fun g2 => if g2 = g then n else c g2

/-- `next_ticket_number` run without interleaving: read the counter, write
back `current + 1`, return `current + 1`. -/
def next_ticket_number (counters : GuildCounters) (guild_id : Nat) :
    Nat × GuildCounters :=
  let current := counters guild_id
  let nxt := current + 1
  (nxt, counters.setCounter guild_id nxt)

/-- One of the two tasks in the interleaving model. -/
inductive AllocTask
  | A
  | B
  deriving Repr, DecidableEq

/-- Per-task local state while `next_ticket_number` is in flight: the value
the task's `SELECT` fetched, and the value its call returned. -/
structure AllocLocal where
  fetched : Option Nat := none
  ret : Option Nat := none
  deriving Repr, DecidableEq

/-- Shared counter plus the two tasks' local state. -/
structure AllocState where
  counter : Nat
  a : AllocLocal
  b : AllocLocal
  deriving Repr, DecidableEq

/-- The two atomic database statements inside `next_ticket_number`:
`fetch t` is task `t`'s `SELECT ticket_counter`, `update t` is its
`UPDATE ... SET ticket_counter = fetched + 1` followed by returning
`fetched + 1`. -/
inductive AllocOp
  | fetch (t : AllocTask)
  | update (t : AllocTask)
  deriving Repr, DecidableEq

/-- Execute one atomic statement of an in-flight `next_ticket_number` call. -/
def allocStep (s : AllocState) (op : AllocOp) : AllocState :=
  match op with
  | .fetch .A => { s with a := { s.a with fetched := some s.counter } }
  | .fetch .B => { s with b := { s.b with fetched := some s.counter } }
  | .update .A =>
    match s.a.fetched with
    | none => s
    | some cur => { s with counter := cur + 1, a := { s.a with ret := some (cur + 1) } }
  | .update .B =>
    match s.b.fetched with
    | none => s
    | some cur => { s with counter := cur + 1, b := { s.b with ret := some (cur + 1) } }

/-- Run a schedule of interleaved statements. -/
def allocRun (s : AllocState) (ops : List AllocOp) : AllocState :=
  ops.foldl allocStep s

end TicketBot

namespace TicketBot

/-! ## `bot/database/models.py` and error taxonomy (`bot/core/errors.py`) -/

/-- The error kinds raised by the engine (`ValidationError`,
`TicketLimitReachedError`, `TicketNotFoundError`, `TicketStateError`). -/
inductive TicketError
  | validation (msg : String)
  | limitReached
  | notFound
  | stateError (msg : String)
  deriving Repr, DecidableEq

/-- A ticket category (`TicketCategory`), restricted to the columns the
lifecycle operations read.  Intake questions, role lists and templates are
consumed only by the UI layer. -/
structure TicketCategory where
  id : String
  guild_id : Nat
  key : String
  display_name : String
  priority_default : String := "normal"
  tags_default : List String := []
  sla_minutes : Nat := 120
  is_enabled : Bool := true
  deriving Repr, DecidableEq

/-- A ticket row (`TicketRecord`), with timestamps as instants.
Serialization-only columns (`updated_at`, transcript paths, JSON blobs of
form answers / internal notes, feedback text) are omitted: no operation
studied here branches on them. -/
structure TicketRecord where
  id : String
  ticket_number : Nat
  guild_id : Nat
  channel_id : Nat
  opener_id : Nat
  opener_display : String
  panel_id : Option String := none
  category_key : String
  status : String
  priority : String
  tags : List String := []
  claimed_by_id : Option Nat := none
  claimed_at : Option Nat := none
  first_response_at : Option Nat := none
  first_response_by_id : Option Nat := none
  response_due_at : Option Nat := none
  close_reason : Option String := none
  closed_by_id : Option Nat := none
  closed_at : Option Nat := none
  reopened_count : Nat := 0
  is_locked : Bool := false
  is_anonymous : Bool := false
  soft_deleted : Bool := false
  hard_deleted : Bool := false
  escalation_level : Nat := 0
  department : Option String := none
  created_at : Option Nat := none
  deriving Repr, DecidableEq

/-- The `until_at` column of a blacklist row as read by `get_active`: SQL
`NULL`/empty string (Python falsy), a string `datetime.fromisoformat`
parses to an instant, or a string it rejects with `ValueError`. -/
inductive UntilAt
  | noExpiry
  | validAt (t : Nat)
  | malformed
  deriving Repr, DecidableEq

/-- A `ticket_blacklist` row. -/
structure BlacklistEntry where
  reason : String
  until_at : UntilAt := .noExpiry
  created_by_id : Nat := 0
  deriving Repr, DecidableEq

/-- An `automation_jobs` row. -/
structure AutomationJobRow where
  id : String
  ticket_id : String
  guild_id : Nat
  job_type : String
  run_at : Nat
  payload_json : String
  status : String
  deriving Repr, DecidableEq

/-- A `staff_stats` row (`_ensure` creates it zeroed). -/
structure StaffStats where
  tickets_claimed : Nat := 0
  tickets_closed : Nat := 0
  total_messages : Nat := 0
  total_first_response_seconds : Nat := 0
  first_response_count : Nat := 0
  deriving Repr, DecidableEq

/-- A `ticket_events` row (payload JSON not modeled). -/
structure EventRow where
  ticket_id : String
  guild_id : Nat
  actor_id : Nat
  event_type : String
  deriving Repr, DecidableEq

/-- A Discord guild member as the engine sees it. -/
structure Member where
  id : Nat
  bot : Bool
  deriving Repr, DecidableEq

/-- The blacklist table, keyed by (guild_id, user_id). -/
def Blacklist : Type := Nat → Nat → Option BlacklistEntry

/-- `BlacklistRepository.remove`: `DELETE ... WHERE guild_id = ? AND user_id = ?`. -/
def Blacklist.remove (bl : Blacklist) (g u : Nat) : Blacklist :=
  fun g2 u2 => if g2 = g ∧ u2 = u then none else bl g2 u2

/-- The `staff_stats` table, keyed by (guild_id, staff_id). -/
def StaffMap : Type := Nat → Nat → StaffStats

/-- Read-modify-write of one staff row (the `_ensure` + `UPDATE` pair). -/
def StaffMap.update (m : StaffMap) (g s : Nat) (f : StaffStats → StaffStats) : StaffMap :=
  fun g2 s2 => if g2 = g ∧ s2 = s then f (m g2 s2) else m g2 s2

/-- `StaffStatsRepository.increment_closed`. -/
def increment_closed (m : StaffMap) (g s : Nat) : StaffMap :=
  m.update g s fun st => { st with tickets_closed := st.tickets_closed + 1 }

/-- `StaffStatsRepository.add_message`. -/
def add_message (m : StaffMap) (g s : Nat) : StaffMap :=
  m.update g s fun st => { st with total_messages := st.total_messages + 1 }

/-- `StaffStatsRepository.add_first_response`. -/
def add_first_response (m : StaffMap) (g s secs : Nat) : StaffMap :=
  m.update g s fun st =>
    { st with total_first_response_seconds := st.total_first_response_seconds + secs,
              first_response_count := st.first_response_count + 1 }

/-- The persistent state the lifecycle engine and scheduler touch. -/
structure World where
  counters : GuildCounters
  tickets : List TicketRecord
  jobs : List AutomationJobRow
  categories : List TicketCategory
  blacklist : Blacklist
  cache : CacheStore
  staff : StaffMap
  participants : List (String × Nat)
  events : List EventRow

/-! ## `bot/database/repositories.py` — ticket table operations -/

/-- `TicketRepository.get_by_id`: `SELECT * FROM tickets WHERE id = ?`. -/
def getTicketById (tickets : List TicketRecord) (tid : String) : Option TicketRecord :=
  tickets.find? fun t => t.id == tid

/-- An `UPDATE tickets ... WHERE id = ?`: rewrite the matching rows. -/
def updateTicket (tickets : List TicketRecord) (tid : String)
    (f : TicketRecord → TicketRecord) : List TicketRecord :=
  tickets.map fun t => if t.id == tid then f t else t

/-- `TicketRepository.set_status`: closing additionally stamps reason, actor
and `closed_at = CURRENT_TIMESTAMP`. -/
def set_status (tickets : List TicketRecord) (tid status : String)
    (close_reason : Option String) (closed_by_id : Option Nat) (now : Nat) :
    List TicketRecord :=
  if status = "closed" then
    updateTicket tickets tid fun t =>
      { t with status := status, close_reason := close_reason,
               closed_by_id := closed_by_id, closed_at := some now }
  else
    updateTicket tickets tid fun t => { t with status := status }

/-- `TicketRepository.set_locked`: sets the flag and forces status
`locked`/`open` accordingly. -/
def set_locked (tickets : List TicketRecord) (tid : String) (is_locked : Bool) :
    List TicketRecord :=
  updateTicket tickets tid fun t =>
    { t with is_locked := is_locked, status := if is_locked then "locked" else "open" }

/-- `TicketRepository.record_first_response`: `COALESCE` keeps an existing
value of each first-response column and fills a missing one. -/
def record_first_response (tickets : List TicketRecord) (tid : String)
    (staff_id now : Nat) : List TicketRecord :=
  updateTicket tickets tid fun t =>
    { t with
      first_response_at := match t.first_response_at with
        | some v => some v
        | none => some now,
      first_response_by_id := match t.first_response_by_id with
        | some v => some v
        | none => some staff_id }

/-- `TicketRepository.list_open_by_user`: open/pending tickets of one opener. -/
def list_open_by_user (tickets : List TicketRecord) (g u : Nat) : List TicketRecord :=
  tickets.filter fun t =>
    decide (t.guild_id = g ∧ t.opener_id = u ∧ (t.status = "open" ∨ t.status = "pending"))

/-- `BlacklistRepository.get_active`: point lookup with lazy read-time expiry.
A row whose `until_at` parses to an instant `<= now` is deleted and reported
absent; a row with no expiry, a future expiry, or an unparsable expiry is
returned as active. -/
def get_active (bl : Blacklist) (now g u : Nat) : Option BlacklistEntry × Blacklist :=
  match bl g u with
  | none => (none, bl)
  | some row =>
    match row.until_at with
    | .noExpiry => (some row, bl)
    | .malformed => (some row, bl)
    | .validAt t => if t ≤ now then (none, bl.remove g u) else (some row, bl)

end TicketBot

namespace TicketBot

/-! ## `bot/services/ticket_service.py` — `sanitize_channel_fragment`

```
name = name.strip().lower()
name = re.sub(r"[^a-z0-9-]+", "-", name)
name = re.sub(r"-{2,}", "-", name).strip("-")
return name[:32] or "user"
```

Strings are processed as `List Char`.  `str.lower()` is modeled by the ASCII
`Char.toLower`; a non-ASCII letter differs only in a character that the next
step replaces by `-` either way. -/

/-- The whitespace set of Python's `str.strip()`. -/
def isSpace (c : Char) : Bool :=
  decide (c = ' ' ∨ c = '\t' ∨ c = '\n' ∨ c = '\r' ∨ c = '\x0b' ∨ c = '\x0c')

/-- The character class `[a-z0-9-]`. -/
def allowedChar (c : Char) : Bool :=
  decide (('a' ≤ c ∧ c ≤ 'z') ∨ ('0' ≤ c ∧ c ≤ '9') ∨ c = '-')

/-- Remove trailing characters satisfying `p`. -/
def dropTrailing (p : Char → Bool) (l : List Char) : List Char :=
  (l.reverse.dropWhile p).reverse

/-- Python's two-sided `str.strip(chars)`. -/
def pyStrip (p : Char → Bool) (l : List Char) : List Char :=
  dropTrailing p (l.dropWhile p)

/-- `re.sub(r"[^a-z0-9-]+", "-", name)`: each maximal run of characters
outside the class becomes one hyphen.  A run is recognised pairwise: while
the next character extends the current run nothing is emitted; the last
character of a run emits the replacement hyphen. -/
def subNonAllowed : List Char → List Char
  | [] => []
  | [c] => if allowedChar c then [c] else ['-']
  | a :: b :: rest =>
    if !allowedChar a && !allowedChar b then subNonAllowed (b :: rest)
    else (if allowedChar a then a else '-') :: subNonAllowed (b :: rest)

/-- `re.sub(r"-{2,}", "-", name)`: runs of two or more hyphens collapse to
one (recognised pairwise, like `subNonAllowed`). -/
def collapseHyphens : List Char → List Char
  | [] => []
  | [c] => [c]
  | a :: b :: rest =>
    if a == '-' && b == '-' then collapseHyphens (b :: rest)
    else a :: collapseHyphens (b :: rest)

/-- The pipeline up to (and including) `strip("-")`, i.e. the value of `name`
just before the final `[:32]` truncation. -/
def sanitizePreTruncate (s : String) : List Char :=
  pyStrip (fun c => c == '-')
    (collapseHyphens (subNonAllowed ((pyStrip isSpace s.data).map Char.toLower)))

/-- `TicketService.sanitize_channel_fragment`. -/
def sanitize_channel_fragment (s : String) : String :=
  let out := (sanitizePreTruncate s).take 32
  if out.isEmpty then "user" else String.mk out

/-- `utils/constants.py` `PRIORITY_LEVELS`. -/
def PRIORITY_LEVELS : List String := ["low", "normal", "high", "urgent", "critical"]

/-- The security section of `AppConfig` (`bot/core/config.py`), fields the
lifecycle engine reads. -/
structure SecurityConfig where
  ticket_creation_cooldown_seconds : Nat := 20
  ticket_creation_max_per_hour : Nat := 8
  max_open_tickets_per_user : Nat := 3
  require_ticket_close_reason : Bool := true
  allow_anonymous_tickets : Bool := true
  deriving Repr, DecidableEq

/-! ## `bot/services/ticket_service.py` — creation-side checks -/

/-- `TicketService.is_user_blacklisted` (the `get_active` read may lazily
delete an expired row, so the world is threaded through). -/
def is_user_blacklisted (w : World) (now g u : Nat) : Bool × World :=
  let r := get_active w.blacklist now g u
  (r.1.isSome, { w with blacklist := r.2 })

/-- `TicketService.check_ticket_open_limits`: blacklist, per-user open-ticket
quota, per-(guild,user) cooldown window, per-(guild,user) hourly cap — in
that order.  The rate-limiter hits mutate the cache even when a later check
rejects. -/
def check_ticket_open_limits (cfg : SecurityConfig) (w : World) (g u now : Nat) :
    World × Option TicketError :=
  let bres := is_user_blacklisted w now g u
  let w1 := bres.2
  if bres.1 then
    (w1, some (.validation "You are blacklisted from creating tickets."))
  else if cfg.max_open_tickets_per_user ≤ (list_open_by_user w1.tickets g u).length then
    (w1, some .limitReached)
  else
    let cres := hit w1.cache (s!"ticket:cooldown:{g}:{u}") 1
      cfg.ticket_creation_cooldown_seconds now
    let w2 := { w1 with cache := cres.2 }
    if !cres.1.allowed then
      (w2, some (.validation "Ticket creation cooldown active."))
    else
      let hres := hit w2.cache (s!"ticket:hourly:{g}:{u}")
        cfg.ticket_creation_max_per_hour 3600 now
      let w3 := { w2 with cache := hres.2 }
      if !hres.1.allowed then
        (w3, some (.validation "Hourly ticket creation limit exceeded."))
      else
        (w3, none)

/-- `TicketService.resolve_category`. -/
def resolve_category (cats : List TicketCategory) (g : Nat) (key : String) :
    Except TicketError TicketCategory :=
  match cats.find? (fun c => c.guild_id == g && c.key == key) with
  | none => .error (.validation "Unknown ticket category.")
  | some c =>
    if c.is_enabled then .ok c
    else .error (.validation "Ticket category is disabled.")

/-- `TicketService.build_ticket_name`: allocates the next ticket number and
derives the channel name.  Returns (name, number, new counters). -/
def build_ticket_name (counters : GuildCounters) (g : Nat)
    (category_key opener_name : String) : String × Nat × GuildCounters :=
  let r := next_ticket_number counters g
  let clean := sanitize_channel_fragment opener_name
  ((s!"ticket-{r.1}-{category_key}-{clean}").take 95, r.1, r.2)

/-- Fresh identifiers chosen outside the engine during creation: the
`uuid4()` ticket id and the id of the Discord channel the gateway created. -/
structure NewTicketIds where
  ticket_id : String
  channel_id : Nat
  deriving Repr, DecidableEq

/-- `TicketService.create_ticket`.  Order of effects, as in the source:
`check_ticket_open_limits`, `resolve_category`, permission-overwrite
assembly (external, no state), `build_ticket_name` (this is where the
counter is consumed), channel creation (external), row insert, participant
insert, event and audit logging (the audit table is not modeled). -/
def create_ticket (cfg : SecurityConfig) (w : World) (guild_id opener_id : Nat)
    (opener_display : String) (panel_id : Option String) (category_key : String)
    (anonymous : Bool) (ids : NewTicketIds) (now : Nat) :
    World × Except TicketError TicketRecord :=
  let chk := check_ticket_open_limits cfg w guild_id opener_id now
  match chk.2 with
  | some e => (chk.1, .error e)
  | none =>
    let w1 := chk.1
    match resolve_category w1.categories guild_id category_key with
    | .error e => (w1, .error e)
    | .ok category =>
      let bn := build_ticket_name w1.counters guild_id category.key opener_display
      let ticket_number := bn.2.1
      let w2 := { w1 with counters := bn.2.2 }
      let record : TicketRecord :=
        { id := ids.ticket_id,
          ticket_number := ticket_number,
          guild_id := guild_id,
          channel_id := ids.channel_id,
          opener_id := opener_id,
          opener_display := if anonymous then "Anonymous User" else opener_display,
          panel_id := panel_id,
          category_key := category.key,
          status := "open",
          priority := if PRIORITY_LEVELS.contains category.priority_default then
              category.priority_default
            else "normal",
          tags := category.tags_default,
          is_anonymous := anonymous && cfg.allow_anonymous_tickets,
          response_due_at := some (now + 60 * category.sla_minutes),
          department := some category.display_name,
          created_at := some now }
      let w3 := { w2 with
        tickets := w2.tickets ++ [record],
        participants := w2.participants ++ [(ids.ticket_id, opener_id)],
        events := w2.events ++ [⟨ids.ticket_id, guild_id, opener_id, "create"⟩] }
      (w3, .ok record)

/-! ## `bot/services/ticket_service.py` — lifecycle mutations -/

/-- `TicketService.close_ticket`: under `require_ticket_close_reason`, an
empty/whitespace reason raises `ValidationError` before any repository
write; otherwise the row is closed, the actor's closed-counter bumped and a
`close` event logged. -/
def close_ticket (cfg : SecurityConfig) (w : World) (ticket : TicketRecord)
    (actor_id : Nat) (reason : String) (now : Nat) : Except TicketError World :=
  if cfg.require_ticket_close_reason && (pyStrip isSpace reason.data).isEmpty then
    .error (.validation "Close reason is required.")
  else
    .ok { w with
      tickets := set_status w.tickets ticket.id "closed" (some reason) (some actor_id) now,
      staff := increment_closed w.staff ticket.guild_id actor_id,
      events := w.events ++ [⟨ticket.id, ticket.guild_id, actor_id, "close"⟩] }

/-- `TicketService.lock_ticket`: unconditional `set_locked(id, True)` plus a
`lock` event.  No state check. -/
def lock_ticket (w : World) (ticket : TicketRecord) (actor_id : Nat) : World :=
  { w with
    tickets := set_locked w.tickets ticket.id true,
    events := w.events ++ [⟨ticket.id, ticket.guild_id, actor_id, "lock"⟩] }

/-- `TicketService.unlock_ticket`: unconditional `set_locked(id, False)` plus
an `unlock` event.  No state check, no reopened-counter bump. -/
def unlock_ticket (w : World) (ticket : TicketRecord) (actor_id : Nat) : World :=
  { w with
    tickets := set_locked w.tickets ticket.id false,
    events := w.events ++ [⟨ticket.id, ticket.guild_id, actor_id, "unlock"⟩] }

/-- `TicketService.register_staff_message`.  `ticket` is the snapshot the
caller fetched; the guarded write `record_first_response` itself coalesces
against the stored row.  Bot senders: immediate return. -/
def register_staff_message (w : World) (ticket : TicketRecord) (member : Member)
    (now : Nat) : World :=
  if member.bot then w
  else
    let w1 := { w with staff := add_message w.staff ticket.guild_id member.id }
    if ticket.first_response_at = none then
      let w2 := match ticket.created_at with
        | some created =>
          let secs := now - created
          { w1 with staff := add_first_response w1.staff ticket.guild_id member.id secs }
        | none => w1
      { w2 with tickets := record_first_response w2.tickets ticket.id member.id now }
    else w1

end TicketBot

namespace TicketBot

/-! ## `bot/services/automation_service.py` and the poller
(`bot/cogs/tickets.py` — `automation_worker`) -/

/-- `AutomationService.schedule_auto_close`: inserts a `pending`
`auto_close` job with `run_at = _db_now() + timedelta(minutes=after_minutes)`
and payload `'{}'` (written `\x7b\x7d`), returning the fresh job id. -/
def schedule_auto_close (w : World) (job_id ticket_id : String)
    (guild_id after_minutes now : Nat) : String × World :=
  let run_at := now + 60 * after_minutes
  (job_id,
   { w with jobs := w.jobs ++
      [⟨job_id, ticket_id, guild_id, "auto_close", run_at, "\x7b\x7d", "pending"⟩] })

/-- The `ticket scheduleclose` command handler
(`TicketsCog.ticket_schedule_close`): validates `1 <= minutes <= 10080` and
then calls `schedule_auto_close`.  This is the only caller of the schedule
operation. -/
def ticket_schedule_close (w : World) (job_id : String) (ticket : TicketRecord)
    (minutes now : Nat) : Except TicketError (String × World) :=
  if minutes < 1 || 10080 < minutes then
    .error (.validation "Minutes must be between 1 and 10080.")
  else
    .ok (schedule_auto_close w job_id ticket.id ticket.guild_id minutes now)

/-- `AutomationService.cancel_job`: unconditional `status = 'cancelled'`. -/
def cancel_job (jobs : List AutomationJobRow) (job_id : String) :
    List AutomationJobRow :=
  jobs.map fun j => if j.id == job_id then { j with status := "cancelled" } else j

/-- The due-job predicate of `due_auto_close_jobs`:
`status = 'pending' AND job_type = 'auto_close' AND run_at <= now`. -/
def duePredB (now : Nat) (j : AutomationJobRow) : Bool :=
  decide (j.status = "pending" ∧ j.job_type = "auto_close" ∧ j.run_at ≤ now)

/-- `AutomationService.due_auto_close_jobs`. -/
def due_auto_close_jobs (now : Nat) (jobs : List AutomationJobRow) :
    List AutomationJobRow :=
  jobs.filter (duePredB now)

/-- `AutomationService.mark_job_done`: `status = 'completed'`. -/
def mark_job_done (jobs : List AutomationJobRow) (job_id : String) :
    List AutomationJobRow :=
  jobs.map fun j => if j.id == job_id then { j with status := "completed" } else j

/-- `AutomationService.mark_job_failed`: `status = 'failed'` with the reason
truncated to 200 characters in the payload (its JSON wrapping is not
modeled). -/
def mark_job_failed (jobs : List AutomationJobRow) (job_id reason : String) :
    List AutomationJobRow :=
  jobs.map fun j =>
    if j.id == job_id then { j with status := "failed", payload_json := reason.take 200 }
    else j

/-- The Discord-side collaborators the worker consults: which guilds the bot
can see and which channels resolve to text channels, plus the system actor
(`bot.user.id`). -/
structure DiscordEnv where
  hasGuild : Nat → Bool
  hasChannel : Nat → Bool
  bot_user_id : Nat

/-- The body of the worker loop for one due job: re-fetch the ticket
(missing → failed), skip an already-closed ticket (marked done), resolve
guild and channel (missing → failed), otherwise close the ticket with the
system actor and reason "Scheduled auto-close" and mark the job done.  Any
exception during processing is downgraded to a `failed` marking for that job
only (here: a `ValidationError` from `close_ticket`; the transcript and
notification side effects are external). -/
def processJob (cfg : SecurityConfig) (env : DiscordEnv) (now : Nat) (w : World)
    (job : AutomationJobRow) : World :=
  match getTicketById w.tickets job.ticket_id with
  | none => { w with jobs := mark_job_failed w.jobs job.id "ticket_not_found" }
  | some ticket =>
    if ticket.status = "closed" then
      { w with jobs := mark_job_done w.jobs job.id }
    else if !env.hasGuild ticket.guild_id then
      { w with jobs := mark_job_failed w.jobs job.id "guild_not_found" }
    else if !env.hasChannel ticket.channel_id then
      { w with jobs := mark_job_failed w.jobs job.id "channel_not_found" }
    else
      match close_ticket cfg w ticket env.bot_user_id "Scheduled auto-close" now with
      | .error _ => { w with jobs := mark_job_failed w.jobs job.id "close_failed" }
      | .ok w2 => { w2 with jobs := mark_job_done w2.jobs job.id }

/-- One iteration of `TicketsCog.automation_worker`: fetch the due jobs once,
then process each in order. -/
def automation_worker (cfg : SecurityConfig) (env : DiscordEnv) (now : Nat)
    (w : World) : World :=
  (due_auto_close_jobs now w.jobs).foldl (processJob cfg env now) w

end TicketBot

namespace TicketBot

/-! ## Specification-side predicate and concrete fixtures -/

/-- No two adjacent hyphens (the "no repeated hyphens" output property
claimed for `sanitize_channel_fragment`). -/
def noDoubleHyphen : List Char → Bool
  | [] => true
  | [_] => true
  | a :: b :: rest => !(a == '-' && b == '-') && noDoubleHyphen (b :: rest)

/-- The default security configuration. -/
def cfgDefault : SecurityConfig := {}

/-- A world with empty tables. -/
def emptyWorld : World where
  counters := fun _ => 0
  tickets := []
  jobs := []
  categories := []
  blacklist := fun _ _ => none
  cache := CacheStore.empty
  staff := fun _ _ => {}
  participants := []
  events := []

/-- A hard-deleted ticket (used to exercise the absence of state checks). -/
def tDeleted : TicketRecord where
  id := "t1"
  ticket_number := 1
  guild_id := 1
  channel_id := 10
  opener_id := 2
  opener_display := "alice"
  category_key := "support"
  status := "deleted"
  priority := "normal"
  hard_deleted := true

/-- An open ticket with no first response yet. -/
def tFresh : TicketRecord where
  id := "t2"
  ticket_number := 2
  guild_id := 1
  channel_id := 11
  opener_id := 3
  opener_display := "bob"
  category_key := "support"
  status := "open"
  priority := "normal"
  created_at := some 100

/-- A ticket whose first response is already recorded. -/
def tAnswered : TicketRecord where
  id := "t3"
  ticket_number := 3
  guild_id := 1
  channel_id := 12
  opener_id := 4
  opener_display := "carol"
  category_key := "support"
  status := "open"
  priority := "normal"
  first_response_at := some 50
  first_response_by_id := some 9
  created_at := some 40

/-- World for the lock/unlock fixture. -/
def wC10 : World := { emptyWorld with tickets := [tDeleted] }

/-- World for the first-response fixture. -/
def wC4 : World := { emptyWorld with tickets := [tFresh, tAnswered] }

/-- World whose blacklist rejects opener 2 of guild 1. -/
def wC3 : World :=
  { emptyWorld with
    blacklist := fun g u => if g = 1 ∧ u = 2 then some { reason := "spam" } else none }

/-- Blacklist fixture: user 2 expired at instant 10, user 3 permanent,
user 4 expires at instant 99. -/
def blC6 : Blacklist := fun g u =>
  if g = 1 ∧ u = 2 then some { reason := "a", until_at := .validAt 10 }
  else if g = 1 ∧ u = 3 then some { reason := "b" }
  else if g = 1 ∧ u = 4 then some { reason := "c", until_at := .validAt 99 }
  else none

/-- World for the close fixture. -/
def wC8 : World := { emptyWorld with tickets := [tFresh] }

/-- The world produced by a successful close of `tFresh` in `wC8`
(actor 7, reason "done", instant 5). -/
def wC8closed : World :=
  match close_ticket cfgDefault wC8 tFresh 7 "done" 5 with
  | .ok w2 => w2
  | .error _ => wC8

/-- The world after the first qualifying staff message on `tFresh`. -/
def wC4after : World := register_staff_message wC4 tFresh ⟨9, false⟩ 130

end TicketBot

namespace TicketBot

/-! ## Helper lemmas -/

/-- A keyed `UPDATE ... WHERE key = ?` over a table commutes with the keyed
`SELECT`: the first matching row is rewritten, provided the update preserves
the key. -/
theorem find?_map_if {α : Type} (key : α → String) (tid : String) (f : α → α)
    (hf : ∀ x, key (f x) = key x) (l : List α) :
    ((l.map fun x => if key x == tid then f x else x).find? fun x => key x == tid)
      = (l.find? fun x => key x == tid).map f := by
  induction l with
  | nil => rfl
  | cons a t ih =>
    by_cases h : (key a == tid) = true
    · have h2 : (key (f a) == tid) = true := by rw [hf a]; exact h
      rw [List.map_cons, if_pos h]
      simp only [List.find?_cons, h, h2, Option.map_some']
    · have hb : (key a == tid) = false := by simpa using h
      rw [List.map_cons, if_neg h]
      simp only [List.find?_cons, hb]
      exact ih

/-- Specialization to the ticket table. -/
theorem getTicketById_updateTicket (l : List TicketRecord) (tid : String)
    (f : TicketRecord → TicketRecord) (hf : ∀ t, (f t).id = t.id) :
    getTicketById (updateTicket l tid f) tid = (getTicketById l tid).map f :=
  find?_map_if TicketRecord.id tid f hf l

end TicketBot

namespace TicketBot

/-! ## Claim C1 — per-guild ticket-number allocation under concurrency -/

/-- C1.  `next_ticket_number` is a non-atomic read-then-write: under the
interleaving in which both tasks run their `SELECT` before either `UPDATE`
(possible because the two statements are separated by an await point), both
calls return ticket number 1 for the same guild — equal numbers for two
concurrent creators.  The serialized schedule, by contrast, returns 1 then
2, matching the sequential `next_ticket_number`. -/
theorem next_ticket_number_race_eval :
    (allocRun ⟨0, {}, {}⟩ [.fetch .A, .fetch .B, .update .A, .update .B]).a.ret = some 1
    ∧ (allocRun ⟨0, {}, {}⟩ [.fetch .A, .fetch .B, .update .A, .update .B]).b.ret = some 1
    ∧ (allocRun ⟨0, {}, {}⟩ [.fetch .A, .update .A, .fetch .B, .update .B]).a.ret = some 1
    ∧ (allocRun ⟨0, {}, {}⟩ [.fetch .A, .update .A, .fetch .B, .update .B]).b.ret = some 2
    ∧ (next_ticket_number (fun _ => 0) 1).1 = 1 := by
  refine ⟨rfl, rfl, rfl, rfl, rfl⟩

/-! ## Claim C2 — fixed-window rate limiter -/

/-- C2.  On a fresh key with `limit = 2` and a positive window, three rapid
hits return `allowed = [true, true, false]` with `current = [1, 2, 3]` (the
disallowed third hit still increments the counter), and a hit at the window
boundary `t + w` finds the entry expired and returns `current = 1`,
`allowed = true`. -/
theorem rate_limiter_hit_fixed_window (store : CacheStore) (key : String) (t w : Nat)
    (hfresh : store key = none) (hw : 0 < w) :
    (hit store key 2 w t).1 = ⟨true, 1, 2⟩
    ∧ (hit (hit store key 2 w t).2 key 2 w t).1 = ⟨true, 2, 2⟩
    ∧ (hit (hit (hit store key 2 w t).2 key 2 w t).2 key 2 w t).1 = ⟨false, 3, 2⟩
    ∧ (hit (hit (hit (hit store key 2 w t).2 key 2 w t).2 key 2 w t).2 key 2 w (t + w)).1
        = ⟨true, 1, 2⟩ := by
  have hwz : ¬ w = 0 := by omega
  have hlive : ¬ t + w ≤ t := by omega
  have hexp : t + w ≤ t + w := le_refl _
  refine ⟨?_, ?_, ?_, ?_⟩ <;>
    simp [hit, MemoryCache.incr, CacheStore.setEntry, isExpired, ttlExpiry,
      hfresh, hwz, hlive, hexp]

/-- Witness for C2 at `key = "k1"`, `t = 0`, `w = 1` on the empty cache. -/
theorem rate_limiter_hit_fixed_window_witness :
    CacheStore.empty "k1" = none ∧ 0 < 1
    ∧ ((hit CacheStore.empty "k1" 2 1 0).1 = ⟨true, 1, 2⟩
      ∧ (hit (hit CacheStore.empty "k1" 2 1 0).2 "k1" 2 1 0).1 = ⟨true, 2, 2⟩
      ∧ (hit (hit (hit CacheStore.empty "k1" 2 1 0).2 "k1" 2 1 0).2 "k1" 2 1 0).1
          = ⟨false, 3, 2⟩
      ∧ (hit (hit (hit (hit CacheStore.empty "k1" 2 1 0).2 "k1" 2 1 0).2 "k1" 2 1 0).2
          "k1" 2 1 (0 + 1)).1 = ⟨true, 1, 2⟩) :=
  ⟨rfl, Nat.one_pos,
    rate_limiter_hit_fixed_window CacheStore.empty "k1" 0 1 rfl Nat.one_pos⟩

end TicketBot

namespace TicketBot

/-! ## Claim C6 — blacklist lazy expiry -/

/-- C6.  A blacklist row whose `until_at` parses to an instant in the past is
treated as absent by `get_active`: the call returns `none` and deletes the
row, and any subsequent `get_active` for the same (guild, user) also returns
`none`.  A row with no expiry, or with a future expiry, is returned as
active with the table untouched. -/
theorem blacklist_get_active_lazy_expiry (bl : Blacklist) (now now2 g u t : Nat)
    (row : BlacklistEntry) :
    (bl g u = some row → row.until_at = .validAt t → t < now →
      get_active bl now g u = (none, bl.remove g u)
      ∧ (get_active (bl.remove g u) now2 g u).1 = none)
    ∧ (bl g u = some row → row.until_at = .noExpiry →
      get_active bl now g u = (some row, bl))
    ∧ (bl g u = some row → row.until_at = .validAt t → now < t →
      get_active bl now g u = (some row, bl)) := by
  refine ⟨fun h1 h2 h3 => ⟨?_, ?_⟩, fun h1 h2 => ?_, fun h1 h2 h3 => ?_⟩
  · simp [get_active, h1, h2, Nat.le_of_lt h3]
  · have hrm : (bl.remove g u) g u = none := by simp [Blacklist.remove]
    simp [get_active, hrm]
  · simp [get_active, h1, h2]
  · have : ¬ t ≤ now := by omega
    simp [get_active, h1, h2, this]

/-- Witness for C6 on the fixture `blC6` (user 2 expired at 10, read at 11;
user 3 permanent; user 4 expiring at 99, read at 11). -/
theorem blacklist_get_active_lazy_expiry_witness :
    blC6 1 2 = some { reason := "a", until_at := .validAt 10 }
    ∧ (get_active blC6 11 1 2 = (none, blC6.remove 1 2)
       ∧ (get_active (blC6.remove 1 2) 12 1 2).1 = none)
    ∧ get_active blC6 11 1 3 = (some { reason := "b" }, blC6)
    ∧ get_active blC6 11 1 4 = (some { reason := "c", until_at := .validAt 99 }, blC6) :=
  ⟨rfl,
    (blacklist_get_active_lazy_expiry blC6 11 12 1 2 10
        { reason := "a", until_at := .validAt 10 }).1 rfl rfl (by omega),
    (blacklist_get_active_lazy_expiry blC6 11 12 1 3 0 { reason := "b" }).2.1 rfl rfl,
    (blacklist_get_active_lazy_expiry blC6 11 12 1 4 99
        { reason := "c", until_at := .validAt 99 }).2.2 rfl rfl (by omega)⟩

/-! ## Claim C7 — scheduling an auto-close -/

/-- C7.  The schedule operation (the `scheduleclose` command layer plus
`AutomationService.schedule_auto_close`) rejects minutes outside
`[1, 10080]` with a `ValidationError` and inserts nothing; for in-range
minutes it inserts exactly one `pending` job of type `auto_close` with
`run_at = now + minutes` and returns the fresh job id. -/
theorem schedule_auto_close_spec (w : World) (job_id : String) (ticket : TicketRecord)
    (minutes now : Nat) :
    (minutes < 1 ∨ 10080 < minutes →
      ticket_schedule_close w job_id ticket minutes now
        = .error (.validation "Minutes must be between 1 and 10080."))
    ∧ (1 ≤ minutes → minutes ≤ 10080 →
      ticket_schedule_close w job_id ticket minutes now
        = .ok (job_id, { w with jobs := w.jobs ++
            [⟨job_id, ticket.id, ticket.guild_id, "auto_close", now + 60 * minutes,
              "\x7b\x7d", "pending"⟩] })) := by
  constructor
  · intro h
    have hc : (decide (minutes < 1) || decide (10080 < minutes)) = true := by
      rcases h with h | h <;> simp [h]
    simp only [ticket_schedule_close, hc]
    rfl
  · intro h1 h2
    have hc : (decide (minutes < 1) || decide (10080 < minutes)) = false := by
      simp; omega
    simp only [ticket_schedule_close, hc, schedule_auto_close]
    rfl

/-- Witness for C7: minutes 0 is rejected; minutes 5 at instant 7 inserts a
pending job due at 307. -/
theorem schedule_auto_close_spec_witness :
    ticket_schedule_close emptyWorld "j1" tFresh 0 7
      = .error (.validation "Minutes must be between 1 and 10080.")
    ∧ ticket_schedule_close emptyWorld "j1" tFresh 5 7
      = .ok ("j1", { emptyWorld with jobs := emptyWorld.jobs ++
          [⟨"j1", tFresh.id, tFresh.guild_id, "auto_close", 7 + 60 * 5,
            "\x7b\x7d", "pending"⟩] }) :=
  ⟨(schedule_auto_close_spec emptyWorld "j1" tFresh 0 7).1 (Or.inl (by omega)),
   (schedule_auto_close_spec emptyWorld "j1" tFresh 5 7).2 (by omega) (by omega)⟩

end TicketBot

namespace TicketBot

/-! ## Claim C10 — lock/unlock perform no state check -/

/-- C10.  For a stored ticket of any prior status (no state guard),
`unlock_ticket` rewrites the row to `is_locked = false`, `status = "open"`
and `lock_ticket` rewrites it to `is_locked = true`, `status = "locked"`;
every other column — in particular `reopened_count` — is unchanged, as the
record-update form of the conclusion states. -/
theorem lock_unlock_unconditional (w : World) (ticket : TicketRecord) (actor : Nat)
    (stored : TicketRecord) (h : getTicketById w.tickets ticket.id = some stored) :
    getTicketById (unlock_ticket w ticket actor).tickets ticket.id
      = some { stored with is_locked := false, status := "open" }
    ∧ getTicketById (lock_ticket w ticket actor).tickets ticket.id
      = some { stored with is_locked := true, status := "locked" } := by
  constructor
  · show getTicketById (set_locked w.tickets ticket.id false) ticket.id = _
    rw [set_locked, getTicketById_updateTicket
      w.tickets ticket.id
      (fun t => { t with is_locked := false,
                         status := if (false : Bool) then "locked" else "open" })
      (fun t => rfl), h]
    rfl
  · show getTicketById (set_locked w.tickets ticket.id true) ticket.id = _
    rw [set_locked, getTicketById_updateTicket
      w.tickets ticket.id
      (fun t => { t with is_locked := true,
                         status := if (true : Bool) then "locked" else "open" })
      (fun t => rfl), h]
    rfl

/-- Witness for C10: the fixture ticket has status "deleted", yet unlock
forces it to open/unlocked and lock to locked, with `reopened_count` still
0. -/
theorem lock_unlock_unconditional_witness :
    getTicketById wC10.tickets "t1" = some tDeleted
    ∧ getTicketById (unlock_ticket wC10 tDeleted 5).tickets "t1"
        = some { tDeleted with is_locked := false, status := "open" }
    ∧ getTicketById (lock_ticket wC10 tDeleted 5).tickets "t1"
        = some { tDeleted with is_locked := true, status := "locked" } :=
  ⟨rfl,
   (lock_unlock_unconditional wC10 tDeleted 5 tDeleted rfl).1,
   (lock_unlock_unconditional wC10 tDeleted 5 tDeleted rfl).2⟩

/-! ## Claim C8 — close requires a reason when configured -/

/-- C8.  With `require_ticket_close_reason` set, `close_ticket` on an
empty/whitespace-only reason fails with `ValidationError` before any
repository write (the `Except.error` result carries no state change);
otherwise the call succeeds and the stored row gains `status = "closed"`
with the close reason, closing actor and closed-at instant recorded. -/
theorem close_ticket_reason_required (cfg : SecurityConfig) (w : World)
    (ticket : TicketRecord) (actor : Nat) (reason : String) (now : Nat)
    (stored : TicketRecord) :
    (cfg.require_ticket_close_reason = true → pyStrip isSpace reason.data = [] →
      close_ticket cfg w ticket actor reason now
        = .error (.validation "Close reason is required."))
    ∧ (∀ w2, close_ticket cfg w ticket actor reason now = .ok w2 →
        getTicketById w.tickets ticket.id = some stored →
        getTicketById w2.tickets ticket.id
          = some { stored with status := "closed", close_reason := some reason,
                               closed_by_id := some actor, closed_at := some now }) := by
  constructor
  · intro h1 h2
    simp [close_ticket, h1, h2]
  · intro w2 hok hst
    by_cases hc :
        (cfg.require_ticket_close_reason && (pyStrip isSpace reason.data).isEmpty) = true
    · rw [close_ticket, if_pos hc] at hok
      exact absurd hok (by simp)
    · rw [close_ticket, if_neg hc] at hok
      have hw2 : w2 = { w with
            tickets := set_status w.tickets ticket.id "closed" (some reason) (some actor) now,
            staff := increment_closed w.staff ticket.guild_id actor,
            events := w.events ++ [⟨ticket.id, ticket.guild_id, actor, "close"⟩] } := by
        cases hok
        rfl
      subst hw2
      show getTicketById
          (set_status w.tickets ticket.id "closed" (some reason) (some actor) now)
          ticket.id = _
      rw [set_status, if_pos rfl, getTicketById_updateTicket
        w.tickets ticket.id
        (fun t => { t with status := "closed", close_reason := some reason,
                           closed_by_id := some actor, closed_at := some now })
        (fun t => rfl), hst]
      rfl

/-- Witness for C8: under the default configuration (reason required), a
whitespace reason is rejected; reason "done" closes the fixture ticket with
actor 7 at instant 5. -/
theorem close_ticket_reason_required_witness :
    close_ticket cfgDefault wC8 tFresh 7 "   " 5
      = .error (.validation "Close reason is required.")
    ∧ close_ticket cfgDefault wC8 tFresh 7 "done" 5 = .ok wC8closed
    ∧ getTicketById wC8closed.tickets "t2"
        = some { tFresh with status := "closed", close_reason := some "done",
                             closed_by_id := some 7, closed_at := some 5 } :=
  ⟨(close_ticket_reason_required cfgDefault wC8 tFresh 7 "   " 5 tFresh).1 rfl rfl,
   rfl,
   (close_ticket_reason_required cfgDefault wC8 tFresh 7 "done" 5 tFresh).2
     wC8closed rfl rfl⟩

end TicketBot

namespace TicketBot

/-! ## Claim C4 — first response is recorded exactly once -/

/-- C4.  `register_staff_message` is a complete no-op for bot senders; once
the stored row's first-response fields are set, any further call — whatever
snapshot `snap` the caller passed and whoever the staff member is — leaves
the stored row exactly as it was (the conclusion returns `stored` itself);
and the first qualifying call on a row with both fields unset stamps them
with the current instant and the sender's id. -/
theorem register_staff_message_first_response_once (w : World)
    (stored snap : TicketRecord) (m : Member) (now : Nat) :
    (m.bot = true → register_staff_message w snap m now = w)
    ∧ (snap.id = stored.id → getTicketById w.tickets stored.id = some stored →
        stored.first_response_at.isSome = true →
        stored.first_response_by_id.isSome = true →
        getTicketById (register_staff_message w snap m now).tickets stored.id
          = some stored)
    ∧ (m.bot = false → getTicketById w.tickets snap.id = some snap →
        snap.first_response_at = none → snap.first_response_by_id = none →
        getTicketById (register_staff_message w snap m now).tickets snap.id
          = some { snap with first_response_at := some now,
                             first_response_by_id := some m.id }) := by
  refine ⟨fun hbot => ?_, fun hid hst ha hb => ?_, fun hbot hst ha hb => ?_⟩
  · simp [register_staff_message, hbot]
  · obtain ⟨x, hx⟩ := Option.isSome_iff_exists.mp ha
    obtain ⟨y, hy⟩ := Option.isSome_iff_exists.mp hb
    by_cases hbot : m.bot
    · simp [register_staff_message, hbot, hst]
    · simp only [register_staff_message, hbot, if_neg, Bool.false_eq_true,
        reduceIte]
      by_cases hsnap : snap.first_response_at = none
      · -- the guarded write runs, but COALESCE keeps the stored values
        simp only [hsnap, reduceIte]
        rcases hcr : snap.created_at with _ | created <;>
        · simp only
          rw [record_first_response, ← hid, getTicketById_updateTicket
            w.tickets snap.id
            (fun t => { t with
              first_response_at := match t.first_response_at with
                | some v => some v
                | none => some now,
              first_response_by_id := match t.first_response_by_id with
                | some v => some v
                | none => some m.id })
            (fun t => rfl), hid, hst]
          simp only [Option.map_some', hx, hy]
          rw [← hx, ← hy]
      · simp only [hsnap, reduceIte]
        exact hst
  · simp only [register_staff_message, hbot, Bool.false_eq_true, reduceIte, ha,
      Bool.true_eq_false]
    rcases hcr : snap.created_at with _ | created <;>
    · simp only
      rw [record_first_response, getTicketById_updateTicket
        w.tickets snap.id
        (fun t => { t with
          first_response_at := match t.first_response_at with
            | some v => some v
            | none => some now,
          first_response_by_id := match t.first_response_by_id with
            | some v => some v
            | none => some m.id })
        (fun t => rfl), hst]
      simp only [Option.map_some', ha, hb]
      rw [hcr]

/-- Witness for C4 on the fixture world: a bot sender changes nothing; the
first qualifying call by staff member 9 at instant 130 stamps `tFresh`; a
later call by a different member 8 leaves the already-answered `tAnswered`
untouched. -/
theorem register_staff_message_first_response_once_witness :
    register_staff_message wC4 tFresh ⟨9, true⟩ 130 = wC4
    ∧ getTicketById wC4after.tickets "t2"
        = some { tFresh with first_response_at := some 130,
                             first_response_by_id := some 9 }
    ∧ getTicketById (register_staff_message wC4 tAnswered ⟨8, false⟩ 200).tickets "t3"
        = some tAnswered :=
  ⟨(register_staff_message_first_response_once wC4 tFresh tFresh ⟨9, true⟩ 130).1 rfl,
   (register_staff_message_first_response_once wC4 tFresh tFresh ⟨9, false⟩ 130).2.2
     rfl rfl rfl rfl,
   (register_staff_message_first_response_once wC4 tAnswered tAnswered
     ⟨8, false⟩ 200).2.1 rfl rfl rfl rfl⟩

end TicketBot

namespace TicketBot

/-! ## Claim C3 — rejected creation never consumes a ticket number -/

/-- The pre-allocation checks never touch the guild counters: every branch of
`check_ticket_open_limits` only rewrites the blacklist (lazy expiry) or the
cache (rate-limiter hits). -/
theorem check_ticket_open_limits_counters (cfg : SecurityConfig) (w : World)
    (g u now : Nat) :
    (check_ticket_open_limits cfg w g u now).1.counters = w.counters := by
  unfold check_ticket_open_limits is_user_blacklisted
  dsimp only
  split
  · rfl
  · split
    · rfl
    · split
      · rfl
      · split
        · rfl
        · rfl

/-- C3.  The blacklist, open-quota, cooldown and hourly-cap checks (and the
category resolution that follows them) all run before `next_ticket_number`:
whenever `create_ticket` returns an error of any kind, the guild counters of
the resulting world are exactly those of the input world — a rejected
attempt never consumes a ticket number. -/
theorem create_ticket_rejected_counter_unchanged (cfg : SecurityConfig) (w : World)
    (guild_id opener_id : Nat) (opener_display : String) (panel_id : Option String)
    (category_key : String) (anonymous : Bool) (ids : NewTicketIds) (now : Nat)
    (e : TicketError)
    (h : (create_ticket cfg w guild_id opener_id opener_display panel_id category_key
            anonymous ids now).2 = .error e) :
    (create_ticket cfg w guild_id opener_id opener_display panel_id category_key
        anonymous ids now).1.counters = w.counters := by
  simp only [create_ticket] at h ⊢
  rcases hc : (check_ticket_open_limits cfg w guild_id opener_id now).2 with _ | e2
  · simp only [hc] at h ⊢
    rcases hr : resolve_category
        (check_ticket_open_limits cfg w guild_id opener_id now).1.categories
        guild_id category_key with e3 | cat
    · simp only [hr] at h ⊢
      exact check_ticket_open_limits_counters cfg w guild_id opener_id now
    · rw [hr] at h
      exact absurd h (by simp)
  · simp only [hc] at h ⊢
    exact check_ticket_open_limits_counters cfg w guild_id opener_id now

/-- Witness for C3: in `wC3` opener 2 of guild 1 is blacklisted, so creation
fails with the blacklist validation error and guild 1's counter still reads
0 afterwards. -/
theorem create_ticket_rejected_counter_unchanged_witness :
    (create_ticket cfgDefault wC3 1 2 "Alice" none "support" false ⟨"tid", 20⟩ 0).2
      = .error (.validation "You are blacklisted from creating tickets.")
    ∧ (create_ticket cfgDefault wC3 1 2 "Alice" none "support" false
        ⟨"tid", 20⟩ 0).1.counters = wC3.counters :=
  ⟨rfl,
   create_ticket_rejected_counter_unchanged cfgDefault wC3 1 2 "Alice" none "support"
     false ⟨"tid", 20⟩ 0 (.validation "You are blacklisted from creating tickets.") rfl⟩

end TicketBot

namespace TicketBot

/-! ## Claim C5 — the poller picks up only due pending jobs and is
idempotent after it has run -/

/-- `close_ticket` never touches the jobs table. -/
theorem close_ticket_jobs_eq (cfg : SecurityConfig) (w : World) (t : TicketRecord)
    (a : Nat) (r : String) (now : Nat) (w2 : World)
    (h : close_ticket cfg w t a r now = .ok w2) : w2.jobs = w.jobs := by
  rw [close_ticket] at h
  split at h
  · exact absurd h (by simp)
  · cases h
    rfl

/-- Membership after `mark_job_done`: a row either survives untouched with a
different id, or carries status "completed". -/
theorem mem_mark_job_done (jobs : List AutomationJobRow) (jid : String)
    (j : AutomationJobRow) (h : j ∈ mark_job_done jobs jid) :
    (j ∈ jobs ∧ j.id ≠ jid) ∨ j.status = "completed" := by
  rw [mark_job_done] at h
  rcases List.mem_map.mp h with ⟨j0, hj0, hmap⟩
  by_cases hid : (j0.id == jid) = true
  · right
    rw [if_pos hid] at hmap
    rw [← hmap]
  · left
    rw [if_neg hid] at hmap
    subst hmap
    exact ⟨hj0, by simpa using hid⟩

/-- Membership after `mark_job_failed`: likewise with status "failed". -/
theorem mem_mark_job_failed (jobs : List AutomationJobRow) (jid reason : String)
    (j : AutomationJobRow) (h : j ∈ mark_job_failed jobs jid reason) :
    (j ∈ jobs ∧ j.id ≠ jid) ∨ j.status = "failed" := by
  rw [mark_job_failed] at h
  rcases List.mem_map.mp h with ⟨j0, hj0, hmap⟩
  by_cases hid : (j0.id == jid) = true
  · right
    rw [if_pos hid] at hmap
    rw [← hmap]
  · left
    rw [if_neg hid] at hmap
    subst hmap
    exact ⟨hj0, by simpa using hid⟩

/-- After `processJob` handles one due job, every row of the jobs table
either is an untouched row of the previous table with a different id, or
has been stamped with a terminal status. -/
theorem processJob_jobs_shape (cfg : SecurityConfig) (env : DiscordEnv) (now : Nat)
    (w : World) (job : AutomationJobRow) :
    ∀ j ∈ (processJob cfg env now w job).jobs,
      (j ∈ w.jobs ∧ j.id ≠ job.id)
      ∨ j.status = "completed" ∨ j.status = "failed" := by
  intro j hj
  rw [processJob] at hj
  rcases hgt : getTicketById w.tickets job.ticket_id with _ | ticket
  · rw [hgt] at hj
    rcases mem_mark_job_failed _ _ _ _ hj with hk | hk
    · exact Or.inl hk
    · exact Or.inr (Or.inr hk)
  · rw [hgt] at hj
    dsimp only at hj
    by_cases hcl : ticket.status = "closed"
    · rw [if_pos hcl] at hj
      rcases mem_mark_job_done _ _ _ hj with hk | hk
      · exact Or.inl hk
      · exact Or.inr (Or.inl hk)
    · rw [if_neg hcl] at hj
      by_cases hg : (!env.hasGuild ticket.guild_id) = true
      · rw [if_pos hg] at hj
        rcases mem_mark_job_failed _ _ _ _ hj with hk | hk
        · exact Or.inl hk
        · exact Or.inr (Or.inr hk)
      · rw [if_neg hg] at hj
        by_cases hch : (!env.hasChannel ticket.channel_id) = true
        · rw [if_pos hch] at hj
          rcases mem_mark_job_failed _ _ _ _ hj with hk | hk
          · exact Or.inl hk
          · exact Or.inr (Or.inr hk)
        · rw [if_neg hch] at hj
          rcases hclose : close_ticket cfg w ticket env.bot_user_id
              "Scheduled auto-close" now with e | w2
          · rw [hclose] at hj
            rcases mem_mark_job_failed _ _ _ _ hj with hk | hk
            · exact Or.inl hk
            · exact Or.inr (Or.inr hk)
          · rw [hclose] at hj
            dsimp only at hj
            rw [close_ticket_jobs_eq cfg w ticket env.bot_user_id
              "Scheduled auto-close" now w2 hclose] at hj
            rcases mem_mark_job_done _ _ _ hj with hk | hk
            · exact Or.inl hk
            · exact Or.inr (Or.inl hk)

/-- A terminally-marked job never satisfies the due predicate. -/
theorem duePredB_of_terminal (now : Nat) (j : AutomationJobRow)
    (h : j.status = "completed" ∨ j.status = "failed") : duePredB now j = false := by
  rcases h with h | h <;> simp [duePredB, h]

/-- Folding `processJob` over a list that covers (by id) every currently due
job leaves a table with no due job at the same instant. -/
theorem worker_foldl_no_due (cfg : SecurityConfig) (env : DiscordEnv) (now : Nat) :
    ∀ (ds : List AutomationJobRow) (w : World),
      (∀ j ∈ w.jobs, duePredB now j = true → j.id ∈ ds.map AutomationJobRow.id) →
      ∀ j ∈ (ds.foldl (processJob cfg env now) w).jobs, duePredB now j = false := by
  intro ds
  induction ds with
  | nil =>
    intro w hw j hj
    rcases hd : duePredB now j with _ | _
    · rfl
    · exact absurd (hw j hj hd) (by simp)
  | cons d ds ih =>
    intro w hw j hj
    rw [List.foldl_cons] at hj
    refine ih (processJob cfg env now w d) ?_ j hj
    intro j2 hj2 hdue
    rcases processJob_jobs_shape cfg env now w d j2 hj2 with ⟨hmem, hne⟩ | hterm
    · have hin := hw j2 hmem hdue
      rw [List.map_cons] at hin
      rcases List.mem_cons.mp hin with heq | hin2
      · exact absurd heq hne
      · exact hin2
    · rw [duePredB_of_terminal now j2 hterm] at hdue
      exact absurd hdue (by simp)

/-- C5.  Left conjunct: `due_auto_close_jobs` returns exactly the jobs whose
status is `pending`, whose type is `auto_close` and whose `run_at` has
passed — so a job in a terminal status (completed/failed/cancelled) is never
returned.  Right conjunct: one worker pass stamps every due job terminal, so
an immediate second pass finds nothing due and changes neither any job nor
any ticket (the whole world is unchanged). -/
theorem automation_worker_due_and_idempotent (cfg : SecurityConfig)
    (env : DiscordEnv) (now : Nat) (w : World) (j : AutomationJobRow) :
    (j ∈ due_auto_close_jobs now w.jobs ↔
      j ∈ w.jobs ∧ j.status = "pending" ∧ j.job_type = "auto_close" ∧ j.run_at ≤ now)
    ∧ automation_worker cfg env now (automation_worker cfg env now w)
        = automation_worker cfg env now w := by
  constructor
  · simp [due_auto_close_jobs, List.mem_filter, duePredB]
  · have hterm : ∀ j2 ∈ (automation_worker cfg env now w).jobs,
        duePredB now j2 = false := by
      apply worker_foldl_no_due cfg env now (due_auto_close_jobs now w.jobs) w
      intro j2 hj2 hdue
      exact List.mem_map_of_mem AutomationJobRow.id
        (List.mem_filter.mpr ⟨hj2, hdue⟩)
    have hnil : due_auto_close_jobs now (automation_worker cfg env now w).jobs = [] := by
      rw [due_auto_close_jobs]
      rw [List.filter_eq_nil_iff]
      intro a ha
      rw [hterm a ha]
      simp
    conv_lhs => rw [automation_worker, hnil]
    rfl

end TicketBot

namespace TicketBot

/-! ## Claim C9 — `sanitize_channel_fragment` output shape -/

/-- Every character emitted by the class substitution lies in `[a-z0-9-]`. -/
theorem subNonAllowed_mem : ∀ (l : List Char) (c : Char),
    c ∈ subNonAllowed l → allowedChar c = true
  | [], c => by intro hc; simp [subNonAllowed] at hc
  | [a], c => by
    intro hc
    by_cases h : allowedChar a = true
    · rw [subNonAllowed, if_pos h] at hc
      rcases List.mem_singleton.mp hc with rfl
      exact h
    · rw [subNonAllowed, if_neg h] at hc
      rcases List.mem_singleton.mp hc with rfl
      decide
  | a :: b :: rest, c => by
    intro hc
    by_cases h : (!allowedChar a && !allowedChar b) = true
    · rw [subNonAllowed, if_pos h] at hc
      exact subNonAllowed_mem (b :: rest) c hc
    · rw [subNonAllowed, if_neg h] at hc
      rcases List.mem_cons.mp hc with rfl | hc2
      · by_cases ha : allowedChar a = true
        · rwa [if_pos ha]
        · rw [if_neg ha]; decide
      · exact subNonAllowed_mem (b :: rest) c hc2

/-- Hyphen collapsing only keeps characters of its input. -/
theorem collapseHyphens_mem : ∀ (l : List Char) (c : Char),
    c ∈ collapseHyphens l → c ∈ l
  | [], c => by intro hc; simp [collapseHyphens] at hc
  | [a], c => by
    intro hc
    rw [collapseHyphens] at hc
    exact hc
  | a :: b :: rest, c => by
    intro hc
    by_cases h : (a == '-' && b == '-') = true
    · rw [collapseHyphens, if_pos h] at hc
      exact List.mem_cons_of_mem a (collapseHyphens_mem (b :: rest) c hc)
    · rw [collapseHyphens, if_neg h] at hc
      rcases List.mem_cons.mp hc with rfl | hc2
      · exact List.mem_cons_self c (b :: rest)
      · exact List.mem_cons_of_mem a (collapseHyphens_mem (b :: rest) c hc2)

/-- Hyphen collapsing preserves the head character. -/
theorem collapseHyphens_head? : ∀ (l : List Char),
    (collapseHyphens l).head? = l.head?
  | [] => rfl
  | [_] => rfl
  | a :: b :: rest => by
    by_cases h : (a == '-' && b == '-') = true
    · have hab := h
      rw [Bool.and_eq_true] at hab
      have ha := beq_iff_eq.mp hab.1
      have hb := beq_iff_eq.mp hab.2
      rw [collapseHyphens, if_pos h, collapseHyphens_head? (b :: rest),
        List.head?_cons, List.head?_cons, ha, hb]
    · rw [collapseHyphens, if_neg h]
      rfl

/-- The collapsed list has no two adjacent hyphens. -/
theorem collapseHyphens_noDouble : ∀ (l : List Char),
    noDoubleHyphen (collapseHyphens l) = true
  | [] => rfl
  | [_] => rfl
  | a :: b :: rest => by
    by_cases h : (a == '-' && b == '-') = true
    · rw [collapseHyphens, if_pos h]
      exact collapseHyphens_noDouble (b :: rest)
    · rw [collapseHyphens, if_neg h]
      have hd : (collapseHyphens (b :: rest)).head? = some b := by
        rw [collapseHyphens_head? (b :: rest)]; rfl
      have hnd := collapseHyphens_noDouble (b :: rest)
      have hf : (a == '-' && b == '-') = false := by simpa using h
      rcases hx : collapseHyphens (b :: rest) with _ | ⟨x, xs⟩
      · rfl
      · rw [hx] at hd hnd
        have hxb : x = b := by
          rw [List.head?_cons] at hd
          exact Option.some.inj hd
        subst hxb
        rw [noDoubleHyphen, hf, hnd]
        rfl

/-- The tail of a no-double-hyphen list again has no double hyphen. -/
theorem noDoubleHyphen_tail (a : Char) (l : List Char)
    (h : noDoubleHyphen (a :: l) = true) : noDoubleHyphen l = true := by
  rcases l with _ | ⟨b, t⟩
  · rfl
  · rw [noDoubleHyphen, Bool.and_eq_true] at h
    exact h.2

/-- `dropWhile` preserves the no-double-hyphen property. -/
theorem noDoubleHyphen_dropWhile (p : Char → Bool) :
    ∀ (l : List Char), noDoubleHyphen l = true →
      noDoubleHyphen (l.dropWhile p) = true := by
  intro l
  induction l with
  | nil => intro h; exact h
  | cons a t ih =>
    intro h
    rw [List.dropWhile_cons]
    by_cases hp : p a = true
    · rw [if_pos hp]
      exact ih (noDoubleHyphen_tail a t h)
    · rw [if_neg hp]
      exact h

/-- A left factor of a no-double-hyphen list has no double hyphen. -/
theorem noDoubleHyphen_append_left : ∀ (l s : List Char),
    noDoubleHyphen (l ++ s) = true → noDoubleHyphen l = true
  | [], _ => fun _ => rfl
  | [_], _ => fun _ => rfl
  | a :: b :: rest, s => by
    intro h
    rw [List.cons_append, List.cons_append, noDoubleHyphen, Bool.and_eq_true] at h
    obtain ⟨h1, h2⟩ := h
    rw [noDoubleHyphen, h1]
    have h3 : noDoubleHyphen (b :: rest) = true :=
      noDoubleHyphen_append_left (b :: rest) s (by rw [List.cons_append]; exact h2)
    rw [h3]
    rfl

/-- A prefix of a no-double-hyphen list has no double hyphen. -/
theorem noDoubleHyphen_of_prefix (l₁ l₂ : List Char) (hp : l₁ <+: l₂)
    (h : noDoubleHyphen l₂ = true) : noDoubleHyphen l₁ = true := by
  obtain ⟨s, rfl⟩ := hp
  exact noDoubleHyphen_append_left l₁ s h

/-- The two-sided strip keeps a prefix of its (left-stripped) argument. -/
theorem prefix_dropTrailing (p : Char → Bool) (l : List Char) :
    dropTrailing p l <+: l := by
  rw [dropTrailing]
  exact List.reverse_suffix.mp (by rw [List.reverse_reverse]; exact List.dropWhile_suffix p)

/-- Heads agree along a prefix. -/
theorem prefix_head? (l₁ l₂ : List Char) (c : Char) (hp : l₁ <+: l₂)
    (h : l₁.head? = some c) : l₂.head? = some c := by
  obtain ⟨s, rfl⟩ := hp
  rcases l₁ with _ | ⟨a, t⟩
  · exact absurd h (by simp)
  · rw [List.cons_append]
    exact h

/-- The head surviving a `dropWhile` fails the dropped predicate. -/
theorem dropWhile_head?_prop (p : Char → Bool) :
    ∀ (l : List Char) (c : Char), (l.dropWhile p).head? = some c → p c = false := by
  intro l
  induction l with
  | nil => intro c hc; exact absurd hc (by simp)
  | cons a t ih =>
    intro c hc
    rw [List.dropWhile_cons] at hc
    by_cases hp : p a = true
    · rw [if_pos hp] at hc
      exact ih c hc
    · rw [if_neg hp] at hc
      rw [List.head?_cons] at hc
      rcases Option.some.inj hc with rfl
      simpa using hp

/-- The head of a Python-style strip fails the stripped predicate. -/
theorem pyStrip_head?_prop (p : Char → Bool) (l : List Char) (c : Char)
    (h : (pyStrip p l).head? = some c) : p c = false := by
  rw [pyStrip] at h
  exact dropWhile_head?_prop p l c
    (prefix_head? _ _ c (prefix_dropTrailing p (l.dropWhile p)) h)

/-- The last character of a Python-style strip fails the stripped
predicate. -/
theorem pyStrip_getLast?_prop (p : Char → Bool) (l : List Char) (c : Char)
    (h : (pyStrip p l).getLast? = some c) : p c = false := by
  rw [pyStrip, dropTrailing, List.getLast?_reverse] at h
  exact dropWhile_head?_prop p (l.dropWhile p).reverse c h

/-- Strip preserves the no-double-hyphen property. -/
theorem pyStrip_noDouble (p : Char → Bool) (l : List Char)
    (h : noDoubleHyphen l = true) : noDoubleHyphen (pyStrip p l) = true := by
  rw [pyStrip]
  exact noDoubleHyphen_of_prefix _ _ (prefix_dropTrailing p (l.dropWhile p))
    (noDoubleHyphen_dropWhile p l h)

/-- Strip keeps only characters of its input. -/
theorem pyStrip_subset (p : Char → Bool) (l : List Char) (c : Char)
    (h : c ∈ pyStrip p l) : c ∈ l := by
  rw [pyStrip] at h
  exact (List.dropWhile_suffix p).subset ((prefix_dropTrailing p (l.dropWhile p)).subset h)

/-- Every character of the pre-truncation pipeline output is in
`[a-z0-9-]`. -/
theorem sanitizePreTruncate_allowed (s : String) (c : Char)
    (h : c ∈ sanitizePreTruncate s) : allowedChar c = true := by
  rw [sanitizePreTruncate] at h
  exact subNonAllowed_mem _ c
    (collapseHyphens_mem _ c (pyStrip_subset _ _ c h))

/-- The pre-truncation pipeline output has no double hyphen. -/
theorem sanitizePreTruncate_noDouble (s : String) :
    noDoubleHyphen (sanitizePreTruncate s) = true := by
  rw [sanitizePreTruncate]
  exact pyStrip_noDouble _ _ (collapseHyphens_noDouble _)

end TicketBot

namespace TicketBot

/-- A head character of the pre-truncation output is never a hyphen (it was
stripped). -/
theorem sanitizePreTruncate_head (s : String) (c : Char)
    (h : (sanitizePreTruncate s).head? = some c) : c ≠ '-' := by
  rw [sanitizePreTruncate] at h
  have := pyStrip_head?_prop _ _ c h
  simpa using this

/-- A last character of the pre-truncation output is never a hyphen (it was
stripped). -/
theorem sanitizePreTruncate_last (s : String) (c : Char)
    (h : (sanitizePreTruncate s).getLast? = some c) : c ≠ '-' := by
  rw [sanitizePreTruncate] at h
  have := pyStrip_getLast?_prop _ _ c h
  simpa using this

/-- C9 (amended).  For every input, `sanitize_channel_fragment` emits only
characters of `[a-z0-9-]`, at most 32 of them, never the empty string, never
a leading hyphen and never two adjacent hyphens; the guarantee of no
*trailing* hyphen holds whenever the hyphen-stripped intermediate result
already fits in 32 characters (the final `[:32]` truncation runs after the
strip and can cut at a hyphen).  The two reference examples hold. -/
theorem sanitize_channel_fragment_spec (s : String) :
    (∀ c ∈ (sanitize_channel_fragment s).data, allowedChar c = true)
    ∧ (sanitize_channel_fragment s).data.length ≤ 32
    ∧ sanitize_channel_fragment s ≠ ""
    ∧ (sanitize_channel_fragment s).data.head? ≠ some '-'
    ∧ noDoubleHyphen (sanitize_channel_fragment s).data = true
    ∧ ((sanitizePreTruncate s).length ≤ 32 →
        (sanitize_channel_fragment s).data.getLast? ≠ some '-')
    ∧ sanitize_channel_fragment "Hello World !!!" = "hello-world"
    ∧ sanitize_channel_fragment "" = "user" := by
  by_cases hemp : ((sanitizePreTruncate s).take 32).isEmpty = true
  · have hs : sanitize_channel_fragment s = "user" := by
      rw [sanitize_channel_fragment]
      simp only [hemp]
      rfl
    refine ⟨?_, ?_, ?_, ?_, ?_, ?_, by decide, by decide⟩ <;> rw [hs]
    · intro c hc
      fin_cases hc <;> decide
    · decide
    · decide
    · decide
    · decide
    · intro _
      decide
  · have hf : ((sanitizePreTruncate s).take 32).isEmpty = false := by
      simpa using hemp
    have hne : (sanitizePreTruncate s).take 32 ≠ [] := by
      simpa [List.isEmpty_iff] using hemp
    have hs : (sanitize_channel_fragment s).data = (sanitizePreTruncate s).take 32 := by
      rw [sanitize_channel_fragment]
      simp only [hf]
      rfl
    have hmk : sanitize_channel_fragment s
        = String.mk ((sanitizePreTruncate s).take 32) := by
      rw [sanitize_channel_fragment]
      simp only [hf]
      rfl
    refine ⟨?_, ?_, ?_, ?_, ?_, ?_, by decide, by decide⟩
    · intro c hc
      rw [hs] at hc
      exact sanitizePreTruncate_allowed s c ((List.take_prefix 32 _).subset hc)
    · rw [hs]
      exact List.length_take_le 32 _
    · rw [hmk]
      intro hx
      apply hne
      have := congrArg String.data hx
      simpa using this
    · rw [hs]
      intro hhead
      exact sanitizePreTruncate_head s '-'
        (prefix_head? _ _ _ (List.take_prefix 32 _) hhead) rfl
    · rw [hs]
      exact noDoubleHyphen_of_prefix _ _ (List.take_prefix 32 _)
        (sanitizePreTruncate_noDouble s)
    · intro hlen
      rw [hs, List.take_of_length_le hlen]
      intro hlast
      exact sanitizePreTruncate_last s '-' hlast rfl

/-- C9 counterexample to the claim as stated: on the 33-character input
below, the hyphen strip runs before the `[:32]` truncation, so the
truncation reintroduces a trailing hyphen — the output ends in `-`,
contradicting "no leading/trailing ... hyphens" for every input. -/
theorem sanitize_channel_fragment_trailing_hyphen_cex :
    sanitize_channel_fragment "a-a-a-a-a-a-a-a-a-a-a-a-a-a-a-a-x"
      = "a-a-a-a-a-a-a-a-a-a-a-a-a-a-a-a-"
    ∧ (sanitize_channel_fragment "a-a-a-a-a-a-a-a-a-a-a-a-a-a-a-a-x").data.getLast?
        = some '-' := by
  constructor
  · decide
  · decide

/-- Witness for C9 at the reference inputs, with the conditional
no-trailing-hyphen conjunct discharged for `"Hello World !!!"`. -/
theorem sanitize_channel_fragment_spec_witness :
    allowedChar 'h' = true
    ∧ (sanitize_channel_fragment "Hello World !!!").data.length ≤ 32
    ∧ sanitize_channel_fragment "Hello World !!!" ≠ ""
    ∧ (sanitize_channel_fragment "Hello World !!!").data.getLast? ≠ some '-'
    ∧ sanitize_channel_fragment "Hello World !!!" = "hello-world"
    ∧ sanitize_channel_fragment "" = "user" :=
  ⟨(sanitize_channel_fragment_spec "Hello World !!!").1 'h' (by decide),
   (sanitize_channel_fragment_spec "Hello World !!!").2.1,
   (sanitize_channel_fragment_spec "Hello World !!!").2.2.1,
   (sanitize_channel_fragment_spec "Hello World !!!").2.2.2.2.2.1 (by decide),
   (sanitize_channel_fragment_spec "Hello World !!!").2.2.2.2.2.2.1,
   (sanitize_channel_fragment_spec "Hello World !!!").2.2.2.2.2.2.2⟩

end TicketBot

namespace TicketBot

/-- Witness for C5: a pending auto-close job due at 50, polled at 60 over a
world holding the open ticket `tFresh`; the job is returned by the due query
and a second worker pass right after the first changes nothing. -/
theorem automation_worker_due_and_idempotent_witness :
    ((⟨"j1", "t2", 1, "auto_close", 50, "\x7b\x7d", "pending"⟩ : AutomationJobRow)
        ∈ due_auto_close_jobs 60
          (World.jobs { wC8 with
            jobs := [⟨"j1", "t2", 1, "auto_close", 50, "\x7b\x7d", "pending"⟩] }))
    ∧ automation_worker cfgDefault ⟨fun _ => true, fun _ => true, 0⟩ 60
        (automation_worker cfgDefault ⟨fun _ => true, fun _ => true, 0⟩ 60
          { wC8 with
            jobs := [⟨"j1", "t2", 1, "auto_close", 50, "\x7b\x7d", "pending"⟩] })
      = automation_worker cfgDefault ⟨fun _ => true, fun _ => true, 0⟩ 60
          { wC8 with
            jobs := [⟨"j1", "t2", 1, "auto_close", 50, "\x7b\x7d", "pending"⟩] } :=
  ⟨(automation_worker_due_and_idempotent cfgDefault ⟨fun _ => true, fun _ => true, 0⟩ 60
      { wC8 with jobs := [⟨"j1", "t2", 1, "auto_close", 50, "\x7b\x7d", "pending"⟩] }
      ⟨"j1", "t2", 1, "auto_close", 50, "\x7b\x7d", "pending"⟩).1.mpr
      (by refine ⟨by decide, rfl, rfl, by decide⟩),
   (automation_worker_due_and_idempotent cfgDefault ⟨fun _ => true, fun _ => true, 0⟩ 60
      { wC8 with jobs := [⟨"j1", "t2", 1, "auto_close", 50, "\x7b\x7d", "pending"⟩] }
      ⟨"j1", "t2", 1, "auto_close", 50, "\x7b\x7d", "pending"⟩).2⟩

end TicketBot
